import Mathlib

/-
Verification of the language-learning backend service (`run.py` and the
translation-crew schemas).  The request handlers, the authentication
decorator, the profile-fetch helpers and the generation-gateway fallbacks
are embedded as executable Lean functions over a small model of Python
JSON values; external collaborators (the identity service, the profile
store, the crew pipeline) are oracles supplied in an environment record,
and each handler additionally returns the trace of external calls it made.
-/

set_option autoImplicit false
set_option linter.unusedVariables false

namespace MavenAI

/-- A JSON value as it appears in a parsed Python request body or a
database row.  `jnull` stands both for JSON `null` and for Python `None`
flowing out of `dict.get`. -/
inductive JVal where
  | jnull
  | jbool (b : Bool)
  | jnum (n : Int)
  | jstr (s : String)
  | jlist (xs : List JVal)

/-- Python truthiness of a `JVal` (`None`, `""`, `0`, `False`, `[]` are
falsy). -/
def pyTruthy : JVal → Bool
  | .jnull => false
  | .jbool b => b
  | .jnum n => n != 0
  | .jstr s => s != ""
  | .jlist xs => !xs.isEmpty

/-- Truthiness of an optional value: Python `None` (modelled `none`) is
falsy, otherwise the value decides. -/
def pyTruthyO : Option JVal → Bool
  | none => false
  | some v => pyTruthy v

/-- Python `x or d` on a value. -/
def pyOrJv (x d : JVal) : JVal :=
  if pyTruthy x then x else d

/-- Python `x or d` where `x` may be `None`. -/
def pyOrO (x : Option JVal) (d : JVal) : JVal :=
  match x with
  | none => d
  | some v => if pyTruthy v then v else d

/-- Python `dict.get(key, default)` on a field that may be absent
(`none`) or present with any value (possibly `jnull`). -/
def pyDictGet (field : Option JVal) (dflt : JVal) : JVal :=
  field.getD dflt

/-- First-match lookup in a parsed JSON object (Python dicts have unique
keys, so first-match agrees with dict lookup). -/
def dictLookup : List (String × JVal) → String → Option JVal
  | [], _ => none
  | (k, v) :: rest, key => if k = key then some v else dictLookup rest key

/-- Auxiliary for Python `str.split(" ")`: returns the first segment and
the remaining segments of a character list split at every space. -/
def splitSpAux : List Char → List Char × List (List Char)
  | [] => ([], [])
  | c :: cs =>
    let r := splitSpAux cs
    if c = ' ' then ([], r.1 :: r.2) else (c :: r.1, r.2)

/-- Python `s.split(" ")`: split at every single space, keeping empty
segments (`"".split(" ") == [""]`, `"a  b".split(" ") == ["a","","b"]`). -/
def pySplitSpace (s : String) : List String :=
  let r := splitSpAux s.data
  (r.1 :: r.2).map String.mk

/-- Python `" " in s` for the one-character separator. -/
def containsSpace (s : String) : Bool :=
  s.data.contains ' '

/-- Token extraction of `require_auth` (and of the identical expression
repeated inside both handlers):
`auth_header.split(" ")[1] if " " in auth_header else auth_header`,
with `Except.error ()` standing for the `IndexError` branch. -/
def extractToken (h : String) : Except Unit String :=
  if containsSpace h then
    match (pySplitSpace h).get? 1 with
    | some t => .ok t
    | none => .error ()
  else .ok h

/-- A row of the `profiles` table as a Python dict: each field is absent
(`none`) or present with a value (`some jnull` for SQL NULL). -/
structure ProfileRow where
  context : Option JVal := none
  native_language : Option JVal := none
  target_language : Option JVal := none

/-- What the `profiles` query returns: either the raised error's message
or the list of rows (`response.data`). -/
abbrev FetchResult := Except String (List ProfileRow)

/-- Function `get_user_context`: swallows any fetch error and returns `None`;
with at least one row returns `row.get("context", "")`; otherwise
`None`. -/
def get_user_context (fetch : FetchResult) : Option JVal :=
  match fetch with
  | .error _ => none
  | .ok [] => none
  | .ok (r :: _) => some (pyDictGet r.context (.jstr ""))

/-- Function `get_user_profile`: swallows any fetch error and returns `None`;
with at least one row returns that row; otherwise `None`. -/
def get_user_profile (fetch : FetchResult) : Option ProfileRow :=
  match fetch with
  | .error _ => none
  | .ok [] => none
  | .ok (r :: _) => some r

/-- Modelled from the spec: the `random_phrase_crew` schema module is
not under `src/`; the spec's `PhraseResult` declares `phrase: string`
and `words: sequence of string`, enforced by the pydantic
constructor. -/
structure PhraseOutput where
  phrase : String
  words : List String

/-- Schema `ExampleSentence` of the translation pipeline. -/
structure ExampleSentence where
  sentence : String
  translation : String

/-- Schema `TranslationOutput` of the translation pipeline: every field
is string-typed as declared in `schemas.py` (`word`,
`source_language`, `target_language`, `primary_translation`, `notes`
are `str`), so constructing one validates its inputs. -/
structure TranslationOutput where
  word : String
  source_language : String
  target_language : String
  primary_translation : String
  alternative_translations : List String
  examples : List ExampleSentence
  notes : String

/-- What `RandomPhraseCrew().crew().kickoff_async` hands back when it
does not raise: a result carrying a `.pydantic` attribute, or an
unstructured result whose `str(...)` form is recorded. -/
inductive PhraseCrewResult where
  | withPydantic (p : PhraseOutput)
  | raw (s : String)

/-- Same for `TranslationCrew().crew().kickoff_async`. -/
inductive TranslationCrewResult where
  | withPydantic (t : TranslationOutput)
  | raw (s : String)

/-- Validation that pydantic v2 applies to a `list[str]` field: every
element must already be a string (no coercion); any other element makes
the model constructor raise a `ValidationError`. -/
def validateStrList : List JVal → Except String (List String)
  | [] => .ok []
  | x :: rest =>
    match x with
    | .jstr s =>
      match validateStrList rest with
      | .ok ws => .ok (s :: ws)
      | .error m => .error m
    | _ => .error "validation error for PhraseOutput"

/-- Gateway `generate_random_phrase`: propagate a raised error, return
`result.pydantic` when present, otherwise fall back to
`PhraseOutput(phrase=str(result), words=words)` — whose pydantic
construction validates `words` against `list[str]` and raises on a
non-string element. -/
def generate_random_phrase (crew : Except String PhraseCrewResult)
    (words : List JVal) (user_context : JVal) : Except String PhraseOutput :=
  match crew with
  | .error e => .error e
  | .ok (.withPydantic p) => .ok p
  | .ok (.raw s) =>
    match validateStrList words with
    | .ok ws => .ok { phrase := s, words := ws }
    | .error m => .error m

/-- Gateway `translate_word`: propagate a raised error, return `result.pydantic`
when present, otherwise fall back to a `TranslationOutput` wrapping
`str(result)` as the primary translation with empty
alternatives/examples/notes — whose pydantic construction validates
`word` and the two resolved languages against `str` and raises when one
of them is not a string. -/
def translate_word (crew : Except String TranslationCrewResult)
    (word source_language target_language user_context : JVal) :
    Except String TranslationOutput :=
  match crew with
  | .error e => .error e
  | .ok (.withPydantic t) => .ok t
  | .ok (.raw s) =>
    match word, source_language, target_language with
    | .jstr w, .jstr sl, .jstr tl =>
      .ok { word := w
            source_language := sl
            target_language := tl
            primary_translation := s
            alternative_translations := []
            examples := []
            notes := "" }
    | _, _, _ => .error "validation error for TranslationOutput"

/-- The language-resolution sequence of the `translate` handler for one
field:
`if not lang and user_profile: lang = user_profile.get(field, dflt)`
followed by `lang = lang or dflt`.  `pfld` is the profile's field when a
profile is present (`none` = no profile, `some none` = key absent). -/
def resolveLang (req : Option JVal) (pfld : Option (Option JVal))
    (dflt : String) : JVal :=
  let v1 : Option JVal :=
    match pfld with
    | some f => if pyTruthyO req then req else some (pyDictGet f (.jstr dflt))
    | none => req
  match v1 with
  | some v => if pyTruthy v then v else .jstr dflt
  | none => .jstr dflt

/-- Modelled from the spec's words, for comparison with `resolveLang`:
"explicit request value > profile value > hardcoded default", where a
truthy request value is used as given, otherwise a present profile with
a truthy field supplies the value, and everything else (no profile,
absent field, null or empty field) falls through to the default. -/
def specResolveLang (req : Option JVal) (pfld : Option (Option JVal))
    (dflt : String) : JVal :=
  if pyTruthyO req then req.getD (.jstr dflt)
  else
    match pfld with
    | some f =>
        if pyTruthy (f.getD .jnull) then f.getD .jnull else .jstr dflt
    | none => .jstr dflt

/-- A response payload: an error object or a serialized output. -/
inductive Payload where
  | errMsg (msg : String)
  | phraseOut (p : PhraseOutput)
  | translationOut (t : TranslationOutput)

/-- An HTTP response of the service: status code and JSON payload. -/
structure Resp where
  status : Nat
  payload : Payload

/-- The 401 response for a missing `Authorization` header. -/
def missingAuthResp : Resp :=
  ⟨401, .errMsg "Authorization header is required"⟩

/-- The 401 response of the `IndexError` branch of `require_auth`. -/
def invalidFormatResp : Resp :=
  ⟨401, .errMsg "Invalid authorization header format"⟩

/-- An external call made while serving a request, with the arguments
passed to the collaborator. -/
inductive Event where
  | verifyIdentity (token : String)
  | profileQuery (uid token : String)
  | generateP (words : List JVal) (user_context : JVal)
  | generateT (word source_language target_language user_context : JVal)

/-- The environment of one request: the `Authorization` header, the
identity service (`supabase.auth.get_user`), the parsed JSON body
(`none` when `get_json` yields nothing usable), the `profiles` query
outcome, and the two crew pipelines' outcomes (`error` = the kickoff
call raised). -/
structure Env where
  authHeader : Option String
  getUser : String → Except String String
  body : Option (List (String × JVal))
  profileRows : FetchResult
  phraseCrew : Except String PhraseCrewResult
  translationCrew : Except String TranslationCrewResult

/-- Decorator `require_auth`: reject a missing or empty header, extract the token,
verify it with the identity service (recording the external call), then
run the wrapped handler body. -/
def require_auth (env : Env) (body : String → String → List Event × Resp) :
    List Event × Resp :=
  match env.authHeader with
  | none => ([], missingAuthResp)
  | some h =>
    if h = "" then ([], missingAuthResp)
    else
      match extractToken h with
      | .error _ => ([], invalidFormatResp)
      | .ok token =>
        match env.getUser token with
        | .error e => ([.verifyIdentity token],
            ⟨401, .errMsg ("Authentication failed: " ++ e)⟩)
        | .ok uid =>
          let r := body uid h
          (.verifyIdentity token :: r.1, r.2)

/-- Tail of the phrase handler after validation: re-extract the token
(an `IndexError` here would be caught by the handler's `except` as a
500), fetch the user context, call the generation pipeline, and map a
raised error to the catch-all 500. -/
def phraseAfterValidation (env : Env) (uid h : String) (ws : List JVal) :
    List Event × Resp :=
  match extractToken h with
  | .error _ => ([], ⟨500, .errMsg "An error occurred: list index out of range"⟩)
  | .ok token =>
    let ctx := pyOrO (get_user_context env.profileRows) (.jstr "")
    match generate_random_phrase env.phraseCrew ws ctx with
    | .error e => ([.profileQuery uid token, .generateP ws ctx],
        ⟨500, .errMsg ("An error occurred: " ++ e)⟩)
    | .ok p => ([.profileQuery uid token, .generateP ws ctx],
        ⟨200, .phraseOut p⟩)

/-- Body of the `/api/random-phrase` handler: `not data` or a missing
`"words"` key is a 400, a non-list or empty `words` is a 400, otherwise
the tail runs. -/
def get_random_phrase_body (env : Env) (uid h : String) : List Event × Resp :=
  match env.body with
  | none => ([], ⟨400, .errMsg "Request body must include 'words' array"⟩)
  | some data =>
    if data.isEmpty then
      ([], ⟨400, .errMsg "Request body must include 'words' array"⟩)
    else
      match dictLookup data "words" with
      | none => ([], ⟨400, .errMsg "Request body must include 'words' array"⟩)
      | some w =>
        match w with
        | .jlist ws =>
          if ws.isEmpty then
            ([], ⟨400, .errMsg "'words' must be a non-empty array"⟩)
          else phraseAfterValidation env uid h ws
        | _ => ([], ⟨400, .errMsg "'words' must be a non-empty array"⟩)

/-- The `/api/random-phrase` endpoint: `require_auth` wrapping the
handler body. -/
def get_random_phrase (env : Env) : List Event × Resp :=
  require_auth env (get_random_phrase_body env)

/-- Tail of the translate handler after validation: re-extract the
token, fetch the profile, resolve the languages and the context, call
the translation pipeline, and map a raised error to the catch-all
500. -/
def translateAfterValidation (env : Env) (uid h : String) (w : JVal)
    (sl0 tl0 : Option JVal) : List Event × Resp :=
  match extractToken h with
  | .error _ => ([], ⟨500, .errMsg "An error occurred: list index out of range"⟩)
  | .ok token =>
    let profile := get_user_profile env.profileRows
    let source_language :=
      resolveLang sl0 (profile.map (·.native_language)) "English"
    let target_language :=
      resolveLang tl0 (profile.map (·.target_language)) "Spanish"
    let user_context : JVal :=
      match profile with
      | some p => pyDictGet p.context (.jstr "")
      | none => .jstr ""
    let ctx := pyOrJv user_context (.jstr "")
    match translate_word env.translationCrew w source_language target_language ctx with
    | .error e =>
        ([.profileQuery uid token, .generateT w source_language target_language ctx],
         ⟨500, .errMsg ("An error occurred: " ++ e)⟩)
    | .ok t =>
        ([.profileQuery uid token, .generateT w source_language target_language ctx],
         ⟨200, .translationOut t⟩)

/-- Body of the `/api/translate` handler: `not data` or a missing
`"word"` key is a 400, a falsy `word` is a 400, otherwise the tail runs
with the raw request language fields. -/
def translate_body (env : Env) (uid h : String) : List Event × Resp :=
  match env.body with
  | none => ([], ⟨400, .errMsg "Request body must include 'word'"⟩)
  | some data =>
    if data.isEmpty then
      ([], ⟨400, .errMsg "Request body must include 'word'"⟩)
    else
      match dictLookup data "word" with
      | none => ([], ⟨400, .errMsg "Request body must include 'word'"⟩)
      | some w =>
        let sl0 := dictLookup data "source_language"
        let tl0 := dictLookup data "target_language"
        if pyTruthy w then translateAfterValidation env uid h w sl0 tl0
        else ([], ⟨400, .errMsg "'word' cannot be empty"⟩)

/-- The `/api/translate` endpoint: `require_auth` wrapping the handler
body. -/
def translate (env : Env) : List Event × Resp :=
  require_auth env (translate_body env)

/-- Modelled from the spec: "the credential is the substring after the
first space".  Everything after the first space of the header. -/
def afterFirstSpace (s : String) : String :=
  String.mk ((s.data.dropWhile (fun d => d != ' ')).tail)

/-- The second space-separated segment of a string: the characters after
the first space and before the next space (the whole remainder when
there is no further space). -/
def secondSegment (s : String) : String :=
  String.mk (((s.data.dropWhile (fun d => d != ' ')).tail).takeWhile
    (fun d => d != ' '))

/-- The token the code extracts from a header, as a total function. -/
def tokenOf (h : String) : String :=
  if containsSpace h then secondSegment h else h

/-- Variant of `require_auth` with the `IndexError` branch removed,
used to state that the branch is dead code. -/
def require_auth_total (env : Env)
    (body : String → String → List Event × Resp) : List Event × Resp :=
  match env.authHeader with
  | none => ([], missingAuthResp)
  | some h =>
    if h = "" then ([], missingAuthResp)
    else
      match env.getUser (tokenOf h) with
      | .error e => ([.verifyIdentity (tokenOf h)],
          ⟨401, .errMsg ("Authentication failed: " ++ e)⟩)
      | .ok uid =>
        let r := body uid h
        (.verifyIdentity (tokenOf h) :: r.1, r.2)

/-- The phrase endpoint's body-shape rejection condition: no usable
body, empty dict, missing `"words"`, non-list `words`, or empty list. -/
def phraseInvalid : Option (List (String × JVal)) → Bool
  | none => true
  | some data =>
    data.isEmpty ||
      match dictLookup data "words" with
      | none => true
      | some (.jlist ws) => ws.isEmpty
      | some _ => true

/-- The translate endpoint's body-shape rejection condition: no usable
body, empty dict, missing `"word"`, or falsy `word`. -/
def translateInvalid : Option (List (String × JVal)) → Bool
  | none => true
  | some data =>
    data.isEmpty ||
      match dictLookup data "word" with
      | none => true
      | some w => !pyTruthy w

/-- Whether a payload is an error object. -/
def Payload.isErr : Payload → Bool
  | .errMsg _ => true
  | _ => false

/-- Whether a JSON value is a list (Python `isinstance(x, list)`). -/
def JVal.isList : JVal → Bool
  | .jlist _ => true
  | _ => false

/-! ### Concrete request environments used by witnesses -/

/-- A baseline request: well-formed bearer header, an identity service
accepting exactly the token `"tok"` as user `"u1"`, a translate body,
no profile row, and crews returning unstructured results. -/
def baseEnv : Env :=
  { authHeader := some "Bearer tok"
    getUser := fun t => if t = "tok" then .ok "u1" else .error "bad token"
    body := some [("word", .jstr "hi")]
    profileRows := .ok []
    phraseCrew := .ok (.raw "a phrase")
    translationCrew := .ok (.raw "hola") }

/-- A profile row with non-empty language preferences and empty
context. -/
def rowFrenchGerman : ProfileRow :=
  { context := some (.jstr "")
    native_language := some (.jstr "French")
    target_language := some (.jstr "German") }

/-! ### Facts about the space-splitting of `require_auth` -/

theorem splitSpAux_fst (l : List Char) :
    (splitSpAux l).1 = l.takeWhile (fun d => d != ' ') := by
  induction l with
  | nil => rfl
  | cons c cs ih =>
    by_cases hc : c = ' '
    · simp [splitSpAux, List.takeWhile, hc]
    · have hcb : (c == ' ') = false := beq_eq_false_iff_ne.mpr hc
      simp [splitSpAux, List.takeWhile, hc, hcb, ih, bne]

theorem splitSpAux_snd_head (l : List Char) (hl : l.contains ' ' = true) :
    (splitSpAux l).2.head? =
      some ((l.dropWhile (fun d => d != ' ')).tail.takeWhile
        (fun d => d != ' ')) := by
  induction l with
  | nil => simp at hl
  | cons c cs ih =>
    by_cases hc : c = ' '
    · subst hc
      simp [splitSpAux, List.dropWhile, splitSpAux_fst]
    · have hcb : (c == ' ') = false := beq_eq_false_iff_ne.mpr hc
      have hcs : cs.contains ' ' = true := by
        simp only [List.contains_cons] at hl
        rcases Bool.or_eq_true_iff.mp hl with h1 | h1
        · exact absurd (beq_iff_eq.mp h1) (fun hh => hc hh.symm)
        · exact h1
      simp [splitSpAux, hc, hcb, List.dropWhile, ih hcs, bne]

theorem pySplitSpace_get1 (s : String) (hs : containsSpace s = true) :
    (pySplitSpace s)[1]? = some (secondSegment s) := by
  unfold pySplitSpace secondSegment
  have h := splitSpAux_snd_head s.data hs
  simp only [List.getElem?_map]
  cases hsnd : (splitSpAux s.data).2 with
  | nil => rw [hsnd] at h; simp at h
  | cons a t =>
    rw [hsnd] at h
    simp only [List.head?_cons, Option.some.injEq] at h
    simp [h]

theorem extractToken_eq_tokenOf (h : String) :
    extractToken h = .ok (tokenOf h) := by
  unfold extractToken tokenOf
  by_cases hc : containsSpace h
  · simp only [hc, if_true]
    rw [show (pySplitSpace h).get? 1 = (pySplitSpace h)[1]? from
      List.get?_eq_getElem? _ _]
    rw [pySplitSpace_get1 h hc]
  · simp [hc]

theorem pySplitSpace_length (s : String) (hs : containsSpace s = true) :
    2 ≤ (pySplitSpace s).length := by
  have h := pySplitSpace_get1 s hs
  rcases List.getElem?_eq_some.mp h with ⟨hl, _⟩
  omega

/-! ### Unfolding lemmas for the authentication wrapper -/

theorem require_auth_missing (env : Env)
    (body : String → String → List Event × Resp)
    (hh : env.authHeader = none) :
    require_auth env body = ([], missingAuthResp) := by
  unfold require_auth
  rw [hh]

theorem require_auth_denied (env : Env)
    (body : String → String → List Event × Resp) (h token e : String)
    (hh : env.authHeader = some h) (hne : h ≠ "")
    (ht : extractToken h = .ok token)
    (hu : env.getUser token = .error e) :
    require_auth env body =
      ([.verifyIdentity token],
       ⟨401, .errMsg ("Authentication failed: " ++ e)⟩) := by
  unfold require_auth
  rw [hh]
  simp only [hne, if_neg, ite_false, ht, hu]

theorem require_auth_ok (env : Env)
    (body : String → String → List Event × Resp) (h token uid : String)
    (hh : env.authHeader = some h) (hne : h ≠ "")
    (ht : extractToken h = .ok token)
    (hu : env.getUser token = .ok uid) :
    require_auth env body =
      (.verifyIdentity token :: (body uid h).1, (body uid h).2) := by
  unfold require_auth
  rw [hh]
  simp only [hne, if_neg, ite_false, ht, hu]

theorem get_random_phrase_body_400 (env : Env) (uid h : String)
    (hb : phraseInvalid env.body = true) :
    (get_random_phrase_body env uid h).1 = []
    ∧ (get_random_phrase_body env uid h).2.status = 400
    ∧ ((get_random_phrase_body env uid h).2.payload).isErr = true := by
  cases henv : env.body with
  | none => simp [get_random_phrase_body, henv, Payload.isErr]
  | some data =>
    rw [henv] at hb
    simp only [phraseInvalid] at hb
    by_cases hd : data.isEmpty
    · simp [get_random_phrase_body, henv, hd, Payload.isErr]
    · simp only [hd, Bool.false_or] at hb
      cases hw : dictLookup data "words" with
      | none => simp [get_random_phrase_body, henv, hd, hw, Payload.isErr]
      | some w =>
        rw [hw] at hb
        cases w with
        | jlist ws =>
          have hws : ws.isEmpty = true := hb
          simp [get_random_phrase_body, henv, hd, hw, hws, Payload.isErr]
        | jnull => simp [get_random_phrase_body, henv, hd, hw, Payload.isErr]
        | jbool b => simp [get_random_phrase_body, henv, hd, hw, Payload.isErr]
        | jnum n => simp [get_random_phrase_body, henv, hd, hw, Payload.isErr]
        | jstr s => simp [get_random_phrase_body, henv, hd, hw, Payload.isErr]

theorem translate_body_400 (env : Env) (uid h : String)
    (hb : translateInvalid env.body = true) :
    (translate_body env uid h).1 = []
    ∧ (translate_body env uid h).2.status = 400
    ∧ ((translate_body env uid h).2.payload).isErr = true := by
  cases henv : env.body with
  | none => simp [translate_body, henv, Payload.isErr]
  | some data =>
    rw [henv] at hb
    simp only [translateInvalid] at hb
    by_cases hd : data.isEmpty
    · simp [translate_body, henv, hd, Payload.isErr]
    · simp only [hd, Bool.false_or] at hb
      cases hw : dictLookup data "word" with
      | none => simp [translate_body, henv, hd, hw, Payload.isErr]
      | some w =>
        rw [hw] at hb
        have hwt : pyTruthy w = false := by
          have : (!pyTruthy w) = true := hb
          simpa using this
        simp [translate_body, henv, hd, hw, hwt, Payload.isErr]

/-! ### Claims -/

/-- C1: for every translate request the resolved source and target
language obey the precedence explicit request value > truthy profile
value > hardcoded default ("English"/"Spanish"), a present-but-empty
profile field falling through to the default.  The code's resolution
sequence `resolveLang` equals the spec-side precedence function
`specResolveLang` on all inputs, and the three scenarios of the spec
(profile French/German with no request fields, no profile, explicit
Italian overriding a German profile value) resolve as stated, as
witnessed by the parameters passed downstream in the call trace. -/
theorem C1_language_precedence :
    (∀ req pfld dflt, resolveLang req pfld dflt = specResolveLang req pfld dflt)
    ∧ translate { baseEnv with profileRows := .ok [rowFrenchGerman] } =
        ([.verifyIdentity "tok", .profileQuery "u1" "tok",
          .generateT (.jstr "hi") (.jstr "French") (.jstr "German") (.jstr "")],
         ⟨200, .translationOut
           ⟨"hi", "French", "German", "hola", [], [], ""⟩⟩)
    ∧ translate baseEnv =
        ([.verifyIdentity "tok", .profileQuery "u1" "tok",
          .generateT (.jstr "hi") (.jstr "English") (.jstr "Spanish") (.jstr "")],
         ⟨200, .translationOut
           ⟨"hi", "English", "Spanish", "hola", [], [], ""⟩⟩)
    ∧ translate { baseEnv with
          body := some [("word", .jstr "hi"), ("target_language", .jstr "Italian")]
          profileRows := .ok [{ target_language := some (.jstr "German") }] } =
        ([.verifyIdentity "tok", .profileQuery "u1" "tok",
          .generateT (.jstr "hi") (.jstr "English") (.jstr "Italian") (.jstr "")],
         ⟨200, .translationOut
           ⟨"hi", "English", "Italian", "hola", [], [], ""⟩⟩) := by
  refine ⟨?_, rfl, rfl, rfl⟩
  intro req pfld dflt
  cases pfld with
  | none =>
    cases req with
    | none => rfl
    | some v =>
      by_cases hv : pyTruthy v <;>
        simp [resolveLang, specResolveLang, pyTruthyO, hv]
  | some f =>
    by_cases hr : pyTruthyO req
    · cases req with
      | none => simp [pyTruthyO] at hr
      | some v =>
        have hv : pyTruthy v = true := hr
        simp [resolveLang, specResolveLang, pyTruthyO, hv]
    · cases f with
      | none =>
        simp only [resolveLang, specResolveLang, hr, pyDictGet,
          Option.getD_none, Bool.false_eq_true, if_false, ite_false]
        split <;> simp [pyTruthy]
      | some v =>
        simp [resolveLang, specResolveLang, hr, pyDictGet]

/-- C2 counterexample: for the header `"Bearer a b"` (which contains a
space) the code extracts `"a"`, the segment between the first and
second space, not `"a b"`, the substring after the first space that the
claim prescribes. -/
theorem C2_counterexample :
    extractToken "Bearer a b" = .ok "a"
    ∧ afterFirstSpace "Bearer a b" = "a b"
    ∧ Except.ok (afterFirstSpace "Bearer a b") ≠ extractToken "Bearer a b" := by
  refine ⟨rfl, rfl, ?_⟩
  intro hc
  rw [show extractToken "Bearer a b" = Except.ok "a" from rfl,
    show afterFirstSpace "Bearer a b" = "a b" from rfl] at hc
  injection hc with hs
  exact absurd hs (by decide)

/-- C2 amended: for every header value containing a space the extracted
credential is the second space-separated segment (the substring after
the first space and before the next space, to the end when there is
none); a header with no space is used whole, and extraction never
crashes.  The same extraction feeds both the identity verification and
the profile fetch, as the trace of a request with header
`"Bearer b c"` shows: both external calls carry the token `"b"`. -/
theorem C2_token_extraction :
    (∀ h, extractToken h = .ok (if containsSpace h then secondSegment h else h))
    ∧ get_random_phrase { baseEnv with
          authHeader := some "Bearer b c"
          getUser := fun t => if t = "b" then .ok "u1" else .error "bad token"
          body := some [("words", .jlist [.jstr "sun"])] } =
        ([.verifyIdentity "b", .profileQuery "u1" "b",
          .generateP [.jstr "sun"] (.jstr "")],
         ⟨200, .phraseOut ⟨"a phrase", ["sun"]⟩⟩) :=
  ⟨fun h => extractToken_eq_tokenOf h, rfl⟩

theorem validateStrList_map_jstr (ws : List String) :
    validateStrList (ws.map .jstr) = .ok ws := by
  induction ws with
  | nil => rfl
  | cons w rest ih => simp [validateStrList, ih]

/-- C5 counterexample: the fallback path can raise.  With a raw crew
result and the non-string word `5` — which passes the handler's
truthiness validation, so the input is reachable via body
`{"word": 5}` — the pydantic construction of the fallback
`TranslationOutput` raises a validation error instead of returning a
result, and the request ends in a 500 rather than a fallback 200; the
phrase fallback likewise raises on a non-string `words` element. -/
theorem C5_counterexample :
    translate_word (.ok (.raw "hola")) (.jnum 5) (.jstr "English")
        (.jstr "Spanish") (.jstr "") =
      .error "validation error for TranslationOutput"
    ∧ translate { baseEnv with body := some [("word", .jnum 5)] } =
        ([.verifyIdentity "tok", .profileQuery "u1" "tok",
          .generateT (.jnum 5) (.jstr "English") (.jstr "Spanish") (.jstr "")],
         ⟨500, .errMsg "An error occurred: validation error for TranslationOutput"⟩)
    ∧ generate_random_phrase (.ok (.raw "a phrase")) [.jnum 5] (.jstr "") =
      .error "validation error for PhraseOutput" :=
  ⟨rfl, rfl, rfl⟩

/-- C5 amended: when the generation pipeline returns a result without
the structured attribute, the gateway builds the fallback — phrase
generation wraps the raw text as the phrase and echoes the words input
unchanged, translation wraps the raw text as the primary translation
with empty alternatives, examples and notes — and this construction
does not raise when the inputs satisfy the schema's string typing (all
`words` elements strings; `word` and the two resolved languages
strings); a result carrying the structured attribute is returned
directly.  With a non-string field the pydantic construction raises
instead, reaching the handler's catch-all. -/
theorem C5_fallback_results :
    (∀ (ws : List String) ctx s,
      generate_random_phrase (.ok (.raw s)) (ws.map .jstr) ctx =
        .ok ⟨s, ws⟩)
    ∧ (∀ ws ctx p, generate_random_phrase (.ok (.withPydantic p)) ws ctx =
      .ok p)
    ∧ (∀ (w sl tl : String) ctx s,
      translate_word (.ok (.raw s)) (.jstr w) (.jstr sl) (.jstr tl) ctx =
        .ok ⟨w, sl, tl, s, [], [], ""⟩)
    ∧ (∀ w sl tl ctx t, translate_word (.ok (.withPydantic t)) w sl tl ctx =
      .ok t) :=
  ⟨fun ws _ s => by simp [generate_random_phrase, validateStrList_map_jstr],
   fun _ _ _ => rfl,
   fun _ _ _ _ _ => rfl, fun _ _ _ _ _ => rfl⟩

/-- C9: for every header string containing a space, splitting on the
space yields at least two segments, so token extraction never hits its
error branch, and the authentication wrapper behaves exactly like the
variant with the invalid-format branch deleted — that 401 response is
never returned for any input. -/
theorem C9_index_error_unreachable :
    (∀ h, containsSpace h = true → 2 ≤ (pySplitSpace h).length)
    ∧ (∀ h, extractToken h ≠ .error ())
    ∧ (∀ env body, require_auth env body = require_auth_total env body) := by
  refine ⟨fun h hh => pySplitSpace_length h hh, ?_, ?_⟩
  · intro h hc
    rw [extractToken_eq_tokenOf] at hc
    exact Except.noConfusion hc
  · intro env body
    unfold require_auth require_auth_total
    cases henv : env.authHeader with
    | none => rfl
    | some hh =>
      by_cases hne : hh = ""
      · simp [hne]
      · simp only [hne, ite_false, extractToken_eq_tokenOf]

/-- Witness for C9 at the header `"Bearer xyz"`. -/
theorem C9_witness :
    containsSpace "Bearer xyz" = true
    ∧ 2 ≤ (pySplitSpace "Bearer xyz").length :=
  ⟨rfl, C9_index_error_unreachable.1 "Bearer xyz" rfl⟩

/-- C3 counterexample: body-shape violations are not rejected before
authentication.  With valid credentials and an empty `words` list, the
400 is produced only after the identity service was called (the trace
already holds the verification event); with the same bad body and no
`Authorization` header, the handler returns 401, not a bad-request
outcome. -/
theorem C3_counterexample :
    get_random_phrase { baseEnv with body := some [("words", .jlist [])] } =
      ([.verifyIdentity "tok"],
       ⟨400, .errMsg "'words' must be a non-empty array"⟩)
    ∧ (get_random_phrase { baseEnv with
          body := some [("words", .jlist [])] }).1.length = 1
    ∧ translate { baseEnv with authHeader := none } = ([], missingAuthResp)
    ∧ (translate { baseEnv with authHeader := none }).2.status = 401 :=
  ⟨rfl, rfl, rfl, rfl⟩

/-- C3 amended: body validation runs after authentication, not before:
for every successfully authenticated request whose body violates the
shape constraints (phrase endpoint: `words` missing, not a list, or
empty; translate endpoint: `word` missing or falsy), the handler
returns a bad-request outcome whose trace contains exactly the identity
verification — no profile fetch and no generation call is made. -/
theorem C3_validation_after_auth (env : Env) (h token uid : String)
    (hh : env.authHeader = some h) (hne : h ≠ "")
    (ht : extractToken h = .ok token) (hu : env.getUser token = .ok uid) :
    (phraseInvalid env.body = true →
      (get_random_phrase env).1 = [.verifyIdentity token]
      ∧ (get_random_phrase env).2.status = 400)
    ∧ (translateInvalid env.body = true →
      (translate env).1 = [.verifyIdentity token]
      ∧ (translate env).2.status = 400) := by
  constructor
  · intro hb
    have hr := require_auth_ok env (get_random_phrase_body env) h token uid
      hh hne ht hu
    have hbdy := get_random_phrase_body_400 env uid h hb
    unfold get_random_phrase
    rw [hr]
    exact ⟨by rw [show ((get_random_phrase_body env uid h).1) = [] from hbdy.1],
      hbdy.2.1⟩
  · intro hb
    have hr := require_auth_ok env (translate_body env) h token uid
      hh hne ht hu
    have hbdy := translate_body_400 env uid h hb
    unfold translate
    rw [hr]
    exact ⟨by rw [show ((translate_body env uid h).1) = [] from hbdy.1],
      hbdy.2.1⟩

/-- Witness for C3 amended: a non-list `words` body with valid
credentials yields a 400 whose trace is exactly the identity
verification. -/
theorem C3_witness :
    phraseInvalid (some [("words", .jstr "x")]) = true
    ∧ (get_random_phrase { baseEnv with
        body := some [("words", .jstr "x")] }).1 = [.verifyIdentity "tok"]
    ∧ (get_random_phrase { baseEnv with
        body := some [("words", .jstr "x")] }).2.status = 400 := by
  have hmain := (C3_validation_after_auth
    { baseEnv with body := some [("words", .jstr "x")] }
    "Bearer tok" "tok" "u1" rfl (by decide) rfl rfl).1 rfl
  exact ⟨rfl, hmain.1, hmain.2⟩

/-- C4: a profile-fetch failure never fails the request: the fetch
helpers turn a raised error into an absent profile, a request whose
profile query errors is answered exactly like one whose query returns
no rows, and a concrete failing-store request still gets a 200 with the
default-derived parameters — the failure is never surfaced and never
produces a 500. -/
theorem C4_profile_failure_degrades :
    (∀ e, get_user_context (.error e) = none
      ∧ get_user_profile (.error e) = none)
    ∧ (∀ (env : Env) (e : String),
        get_random_phrase { env with profileRows := .error e } =
          get_random_phrase { env with profileRows := .ok [] }
        ∧ translate { env with profileRows := .error e } =
          translate { env with profileRows := .ok [] })
    ∧ translate { baseEnv with profileRows := .error "store down" } =
        ([.verifyIdentity "tok", .profileQuery "u1" "tok",
          .generateT (.jstr "hi") (.jstr "English") (.jstr "Spanish") (.jstr "")],
         ⟨200, .translationOut
           ⟨"hi", "English", "Spanish", "hola", [], [], ""⟩⟩)
    ∧ get_random_phrase { baseEnv with
          profileRows := .error "store down"
          body := some [("words", .jlist [.jstr "sun"])] } =
        ([.verifyIdentity "tok", .profileQuery "u1" "tok",
          .generateP [.jstr "sun"] (.jstr "")],
         ⟨200, .phraseOut ⟨"a phrase", ["sun"]⟩⟩) := by
  refine ⟨fun e => ⟨rfl, rfl⟩, ?_, rfl, rfl⟩
  intro env e
  obtain ⟨a, g, b, pr, pc, tc⟩ := env
  constructor
  · simp only [get_random_phrase, require_auth, get_random_phrase_body,
      phraseAfterValidation,
      show get_user_context (.error e) = get_user_context (.ok []) from rfl]
  · simp only [translate, require_auth, translate_body,
      translateAfterValidation,
      show get_user_context (.error e) = get_user_context (.ok []) from rfl,
      show get_user_profile (.error e) = get_user_profile (.ok []) from rfl]

/-- C6: a request with no `Authorization` header gets a 401 error
payload without any identity-service call (empty trace), and a
credential the identity service rejects gets a 401 whose error message
carries the underlying error's message, on both endpoints. -/
theorem C6_unauthorized_responses :
    (∀ env, env.authHeader = none →
      get_random_phrase env = ([], missingAuthResp)
      ∧ translate env = ([], missingAuthResp))
    ∧ (∀ env h token e, env.authHeader = some h → h ≠ "" →
      extractToken h = .ok token → env.getUser token = .error e →
      get_random_phrase env =
        ([.verifyIdentity token],
         ⟨401, .errMsg ("Authentication failed: " ++ e)⟩)
      ∧ translate env =
        ([.verifyIdentity token],
         ⟨401, .errMsg ("Authentication failed: " ++ e)⟩)) := by
  constructor
  · intro env he
    exact ⟨require_auth_missing env _ he, require_auth_missing env _ he⟩
  · intro env h token e hh hne ht hu
    exact ⟨require_auth_denied env _ h token e hh hne ht hu,
           require_auth_denied env _ h token e hh hne ht hu⟩

/-- Witness for C6: a headerless request and a rejected token. -/
theorem C6_witness :
    get_random_phrase { baseEnv with authHeader := none } = ([], missingAuthResp)
    ∧ translate { baseEnv with authHeader := some "Bearer bad" } =
        ([.verifyIdentity "bad"],
         ⟨401, .errMsg "Authentication failed: bad token"⟩) := by
  refine ⟨(C6_unauthorized_responses.1 _ rfl).1, ?_⟩
  exact (C6_unauthorized_responses.2 { baseEnv with authHeader := some "Bearer bad" }
    "Bearer bad" "bad" "bad token" rfl (by decide) rfl rfl).2

/-- C7: for authenticated requests, the phrase endpoint answers 400
with an error payload when `words` is an empty list or not a list, and
the translate endpoint answers 400 with an error payload when the body
lacks `word` or `word` is the empty string. -/
theorem C7_bad_request_codes (env : Env) (h token uid : String)
    (hh : env.authHeader = some h) (hne : h ≠ "")
    (ht : extractToken h = .ok token) (hu : env.getUser token = .ok uid) :
    (∀ data, env.body = some data →
      dictLookup data "words" = some (.jlist []) →
      (get_random_phrase env).2.status = 400
      ∧ ((get_random_phrase env).2.payload).isErr = true)
    ∧ (∀ data w, env.body = some data →
      dictLookup data "words" = some w → w.isList = false →
      (get_random_phrase env).2.status = 400
      ∧ ((get_random_phrase env).2.payload).isErr = true)
    ∧ (∀ data, env.body = some data → dictLookup data "word" = none →
      (translate env).2.status = 400
      ∧ ((translate env).2.payload).isErr = true)
    ∧ (∀ data, env.body = some data →
      dictLookup data "word" = some (.jstr "") →
      (translate env).2.status = 400
      ∧ ((translate env).2.payload).isErr = true) := by
  have keyP : ∀ hb : phraseInvalid env.body = true,
      (get_random_phrase env).2.status = 400
      ∧ ((get_random_phrase env).2.payload).isErr = true := by
    intro hb
    have hbdy := get_random_phrase_body_400 env uid h hb
    unfold get_random_phrase
    rw [require_auth_ok env (get_random_phrase_body env) h token uid hh hne ht hu]
    exact ⟨hbdy.2.1, hbdy.2.2⟩
  have keyT : ∀ hb : translateInvalid env.body = true,
      (translate env).2.status = 400
      ∧ ((translate env).2.payload).isErr = true := by
    intro hb
    have hbdy := translate_body_400 env uid h hb
    unfold translate
    rw [require_auth_ok env (translate_body env) h token uid hh hne ht hu]
    exact ⟨hbdy.2.1, hbdy.2.2⟩
  refine ⟨?_, ?_, ?_, ?_⟩
  · intro data hd hw
    exact keyP (by simp [phraseInvalid, hd, hw])
  · intro data w hd hw hwl
    refine keyP ?_
    rw [hd]
    simp only [phraseInvalid, hw]
    cases w with
    | jlist ws => simp [JVal.isList] at hwl
    | jnull => simp
    | jbool b => simp
    | jnum n => simp
    | jstr s => simp
  · intro data hd hw
    exact keyT (by simp [translateInvalid, hd, hw])
  · intro data hd hw
    exact keyT (by simp [translateInvalid, hd, hw, pyTruthy])

/-- Witness for C7 at the bodies of the spec's examples:
`words: []`, `words: "x"`, a body without `word`, and `word: ""`. -/
theorem C7_witness :
    ((get_random_phrase { baseEnv with body := some [("words", .jlist [])] }).2.status = 400
      ∧ ((get_random_phrase { baseEnv with body := some [("words", .jlist [])] }).2.payload).isErr = true)
    ∧ ((get_random_phrase { baseEnv with body := some [("words", .jstr "x")] }).2.status = 400
      ∧ ((get_random_phrase { baseEnv with body := some [("words", .jstr "x")] }).2.payload).isErr = true)
    ∧ ((translate { baseEnv with body := some [("other", .jstr "y")] }).2.status = 400
      ∧ ((translate { baseEnv with body := some [("other", .jstr "y")] }).2.payload).isErr = true)
    ∧ ((translate { baseEnv with body := some [("word", .jstr "")] }).2.status = 400
      ∧ ((translate { baseEnv with body := some [("word", .jstr "")] }).2.payload).isErr = true) := by
  refine ⟨?_, ?_, ?_, ?_⟩
  · exact (C7_bad_request_codes { baseEnv with body := some [("words", .jlist [])] }
      "Bearer tok" "tok" "u1" rfl (by decide) rfl rfl).1 _ rfl rfl
  · exact (C7_bad_request_codes { baseEnv with body := some [("words", .jstr "x")] }
      "Bearer tok" "tok" "u1" rfl (by decide) rfl rfl).2.1 _ (.jstr "x") rfl rfl rfl
  · exact (C7_bad_request_codes { baseEnv with body := some [("other", .jstr "y")] }
      "Bearer tok" "tok" "u1" rfl (by decide) rfl rfl).2.2.1 _ rfl rfl
  · exact (C7_bad_request_codes { baseEnv with body := some [("word", .jstr "")] }
      "Bearer tok" "tok" "u1" rfl (by decide) rfl rfl).2.2.2 _ rfl rfl

/-- C8: when the generation call raises on an authenticated, valid
request, the handler boundary catches it and answers 500 with an error
payload containing the exception's string form and nothing else — no
partial result accompanies the error. -/
theorem C8_catchall_500 (env : Env) (h token uid : String)
    (hh : env.authHeader = some h) (hne : h ≠ "")
    (ht : extractToken h = .ok token) (hu : env.getUser token = .ok uid) :
    (∀ data ws e, env.body = some data → data.isEmpty = false →
      dictLookup data "words" = some (.jlist ws) → ws.isEmpty = false →
      env.phraseCrew = .error e →
      (get_random_phrase env).2 =
        ⟨500, .errMsg ("An error occurred: " ++ e)⟩)
    ∧ (∀ data w e, env.body = some data → data.isEmpty = false →
      dictLookup data "word" = some w → pyTruthy w = true →
      env.translationCrew = .error e →
      (translate env).2 =
        ⟨500, .errMsg ("An error occurred: " ++ e)⟩) := by
  constructor
  · intro data ws e hd hde hw hws hc
    unfold get_random_phrase
    rw [require_auth_ok env (get_random_phrase_body env) h token uid hh hne ht hu]
    simp only [get_random_phrase_body, hd, hde, hw, hws, Bool.false_eq_true,
      if_false, ite_false, phraseAfterValidation, ht, generate_random_phrase, hc]
  · intro data w e hd hde hw hwt hc
    unfold translate
    rw [require_auth_ok env (translate_body env) h token uid hh hne ht hu]
    simp only [translate_body, hd, hde, hw, hwt, Bool.false_eq_true,
      if_false, ite_false, if_true, translateAfterValidation, ht,
      translate_word, hc]

/-- Witness for C8: crews that raise on both endpoints. -/
theorem C8_witness :
    (get_random_phrase { baseEnv with
        body := some [("words", .jlist [.jstr "sun"])]
        phraseCrew := .error "kickoff exploded" }).2 =
      ⟨500, .errMsg "An error occurred: kickoff exploded"⟩
    ∧ (translate { baseEnv with
        translationCrew := .error "kickoff exploded" }).2 =
      ⟨500, .errMsg "An error occurred: kickoff exploded"⟩ := by
  constructor
  · exact (C8_catchall_500 { baseEnv with
        body := some [("words", .jlist [.jstr "sun"])]
        phraseCrew := .error "kickoff exploded" }
      "Bearer tok" "tok" "u1" rfl (by decide) rfl rfl).1
      _ [.jstr "sun"] "kickoff exploded" rfl rfl rfl rfl rfl
  · exact (C8_catchall_500 { baseEnv with
        translationCrew := .error "kickoff exploded" }
      "Bearer tok" "tok" "u1" rfl (by decide) rfl rfl).2
      _ (.jstr "hi") "kickoff exploded" rfl rfl rfl rfl rfl

/-- C10: the phrase endpoint accepts any non-empty `words` list no
matter what its elements are — empty strings and non-string values pass
validation — and the list reaches the generation call exactly as
received, with no 400 produced. -/
theorem C10_words_passthrough (env : Env) (h token uid : String)
    (hh : env.authHeader = some h) (hne : h ≠ "")
    (ht : extractToken h = .ok token) (hu : env.getUser token = .ok uid)
    (data : List (String × JVal)) (ws : List JVal)
    (hd : env.body = some data) (hde : data.isEmpty = false)
    (hw : dictLookup data "words" = some (.jlist ws))
    (hws : ws.isEmpty = false) :
    (get_random_phrase env).1 =
      [.verifyIdentity token, .profileQuery uid token,
       .generateP ws (pyOrO (get_user_context env.profileRows) (.jstr ""))]
    ∧ (get_random_phrase env).2.status ≠ 400 := by
  unfold get_random_phrase
  rw [require_auth_ok env (get_random_phrase_body env) h token uid hh hne ht hu]
  simp only [get_random_phrase_body, hd, hde, hw, hws, Bool.false_eq_true,
    if_false, ite_false, phraseAfterValidation, ht]
  cases hc : env.phraseCrew with
  | error e => simp [generate_random_phrase, hc]
  | ok r =>
    cases r with
    | withPydantic p => simp [generate_random_phrase, hc]
    | raw s =>
      cases hv : validateStrList ws <;> simp [generate_random_phrase, hc, hv]

/-- Witness for C10: a `words` list holding an empty string, a number
and a nested empty list is forwarded untouched. -/
theorem C10_witness :
    (get_random_phrase { baseEnv with
        body := some [("words", .jlist [.jstr "", .jnum 5, .jlist []])] }).1 =
      [.verifyIdentity "tok", .profileQuery "u1" "tok",
       .generateP [.jstr "", .jnum 5, .jlist []] (.jstr "")]
    ∧ (get_random_phrase { baseEnv with
        body := some [("words", .jlist [.jstr "", .jnum 5, .jlist []])] }).2.status ≠ 400 := by
  have hmain := C10_words_passthrough { baseEnv with
      body := some [("words", .jlist [.jstr "", .jnum 5, .jlist []])] }
    "Bearer tok" "tok" "u1" rfl (by decide) rfl rfl
    _ [.jstr "", .jnum 5, .jlist []] rfl rfl rfl rfl
  exact hmain

end MavenAI
